import Mathlib

/-!
Shallow embedding of the solid-notifications client module
(src/unnamed/part_000: discoverInboxUri, list, send).

The JavaScript promise chains are translated to pure functions returning
both a result and an explicit trace of observable effects: HTTP GETs,
parsing of the response body into an RDF graph, and the POST issued by
send.  The injected web client is modelled as a pair of response
functions; every call to it is recorded in the trace regardless of the
outcome, so frame claims (what was NOT called) are statements about the
trace.  Errors constructed by the module (new Error ...) and errors
propagated from the client are kept apart by the error type.
-/

namespace LDN

/-- Wire-level constant DEFAULT_CONTENT_TYPE from the source. -/
def DEFAULT_CONTENT_TYPE : String := "application/ld+json"

/-- Wire-level constant DEFAULT_ACCEPT from the source. -/
def DEFAULT_ACCEPT : String := "application/ld+json;q=0.9,text/turtle;q=0.8"

/-- Wire-level constant INBOX_LINK_REL from the source. -/
def INBOX_LINK_REL : String := "http://www.w3.org/ns/ldp#inbox"

/-- RDF term; the module only ever reads its value. -/
structure Term where
  value : String
deriving DecidableEq, Repr

/-- rdf.namedNode of the client RDF namespace: wraps an IRI as a term. -/
def namedNode (iri : String) : Term := ⟨iri⟩

/-- RDF triple exposing subject, predicate and object terms. -/
structure Triple where
  subject : Term
  predicate : Term
  object : Term
deriving DecidableEq, Repr

/-- RDF graph: the sequence of triples of a parsed body. -/
structure Graph where
  triples : List Triple
deriving DecidableEq, Repr

/-- graph.match with optional subject, predicate and object constraints.
The primitive is an external collaborator; it is modelled as a filter
that returns the matching triples in the order the graph stores them. -/
def Graph.«match» (g : Graph) (s p o : Option Term) : List Triple :=
  g.triples.filter fun t =>
    (match s with | none => true | some x => t.subject == x) &&
    (match p with | none => true | some x => t.predicate == x) &&
    (match o with | none => true | some x => t.object == x)

/-- Errors surfaced by the module: raised ones are constructed by this
module (new Error with the given message), fromClient ones propagate
from the injected web client untouched. -/
inductive LdnError
  | raised (msg : String)
  | fromClient (msg : String)
deriving DecidableEq, Repr

/-- SolidResponse as observed by this module: the Link-header relation
mapping, the lazily parsed RDF graph of the body, and the resources
mapping of a container (its keys are the member uris). -/
structure SolidResponse where
  linkHeaders : List (String × String)
  parsedGraph : Graph
  resources : List (String × String)
deriving DecidableEq, Repr

/-- Observable effects of one operation, in order of occurrence. -/
inductive Event
  | get (uri : String) (headers : List (String × String))
  | parseGraph
  | request (uri method : String) (headers : List (String × String)) (body : String)
deriving DecidableEq, Repr

/-- True exactly on GET events. -/
def Event.isGet : Event → Bool
  | .get _ _ => true
  | _ => false

/-- True exactly on solidRequest events (the POST issued by send). -/
def Event.isRequest : Event → Bool
  | .request _ _ _ _ => true
  | _ => false

/-- The injected web client capability set: get and solidRequest either
return a response or fail with a client error message. -/
structure WebClient where
  get : String → List (String × String) → Except String SolidResponse
  solidRequest : String → String → List (String × String) → String → Except String SolidResponse

/-- The options hashmap taken by list and send.  An absent field is
none; note that a present empty string is falsy in the source. -/
structure Options where
  webClient : Option WebClient
  inboxUri : Option String
  contentType : Option String

/-- The headers object built for discovery and listing GETs. -/
def discoveryHeaders : List (String × String) := [("Accept", DEFAULT_ACCEPT)]

/-- First stage of discoverInboxUri: use the supplied resource when
present, otherwise GET the uri with the negotiated Accept header. -/
def fetchResource (uri : String) (webClient : WebClient)
    (resource : Option SolidResponse) : Except String SolidResponse × List Event :=
  match resource with
  | some r => (Except.ok r, [])
  | none => (webClient.get uri discoveryHeaders, [Event.get uri discoveryHeaders])

/-- Fallback of discoverInboxUri: parse the body and match any triple
with the inbox predicate; the object value of the first match is the
result, otherwise the dedicated no-inbox error is raised. -/
def searchBodyForInbox (resource : SolidResponse) : Except LdnError String × List Event :=
  let body := resource.parsedGraph
  let ms := body.«match» none (some (namedNode INBOX_LINK_REL)) none
  match ms with
  | t :: _ => (Except.ok t.object.value, [Event.parseGraph])
  | [] => (Except.error (LdnError.raised "No inbox uri found for resource."),
      [Event.parseGraph])

/-- Second stage of discoverInboxUri: a truthy inbox link rel in the
headers is returned immediately, otherwise the body is searched.  The
source tests truthiness, so a present empty string falls through. -/
def discoverFromResource (resource : SolidResponse) : Except LdnError String × List Event :=
  match resource.linkHeaders.lookup INBOX_LINK_REL with
  | some s => if s != "" then (Except.ok s, []) else searchBodyForInbox resource
  | none => searchBodyForInbox resource

/-- discoverInboxUri: resolve the LDN inbox uri of a resource via its
link headers or an inbox predicate in its body. -/
def discoverInboxUri (uri : String) (webClient : WebClient)
    (resource : Option SolidResponse) : Except LdnError String × List Event :=
  match fetchResource uri webClient resource with
  | (Except.error e, evs) => (Except.error (LdnError.fromClient e), evs)
  | (Except.ok r, evs) =>
      let step := discoverFromResource r
      (step.1, evs ++ step.2)

/-- Inbox resolution shared by list and send: a truthy options.inboxUri
is used directly, otherwise discovery runs against the resource uri. -/
def resolveInbox (resourceUri : String) (webClient : WebClient)
    (inboxUri : Option String) : Except LdnError String × List Event :=
  match inboxUri with
  | some s => if s != "" then (Except.ok s, []) else discoverInboxUri resourceUri webClient none
  | none => discoverInboxUri resourceUri webClient none

/-- Content type resolution in send: options.contentType when truthy,
else DEFAULT_CONTENT_TYPE (the source uses the or-else operator, so a
present empty string yields the default). -/
def resolveContentType : Option String → String
  | some s => if s != "" then s else DEFAULT_CONTENT_TYPE
  | none => DEFAULT_CONTENT_TYPE

/-- list: resolve the inbox uri, GET it with the negotiated Accept
header, and return the keys of the container resources mapping. -/
def list (resourceUri : String) (options : Options) :
    Except LdnError (List String) × List Event :=
  match options.webClient with
  | none => (Except.error (LdnError.raised "Web client instance is required"), [])
  | some webClient =>
    match resolveInbox resourceUri webClient options.inboxUri with
    | (Except.error e, evs) => (Except.error e, evs)
    | (Except.ok inboxUri, evs) =>
        match webClient.get inboxUri discoveryHeaders with
        | Except.error e =>
            (Except.error (LdnError.fromClient e), evs ++ [Event.get inboxUri discoveryHeaders])
        | Except.ok container =>
            (Except.ok (container.resources.map Prod.fst),
              evs ++ [Event.get inboxUri discoveryHeaders])

/-- send: resolve the inbox uri, then POST the payload to it with the
resolved Content-Type header via webClient.solidRequest. -/
def send (resourceUri : String) (payload : String) (options : Options) :
    Except LdnError SolidResponse × List Event :=
  match options.webClient with
  | none => (Except.error (LdnError.raised "Web client instance is required"), [])
  | some webClient =>
    match resolveInbox resourceUri webClient options.inboxUri with
    | (Except.error e, evs) => (Except.error e, evs)
    | (Except.ok inboxUri, evs) =>
        let contentType := resolveContentType options.contentType
        let postHeaders := [("Content-Type", contentType)]
        match webClient.solidRequest inboxUri "POST" postHeaders payload with
        | Except.error e =>
            (Except.error (LdnError.fromClient e),
              evs ++ [Event.request inboxUri "POST" postHeaders payload])
        | Except.ok resp =>
            (Except.ok resp, evs ++ [Event.request inboxUri "POST" postHeaders payload])

deriving instance DecidableEq for Except

/-- Web client fixture that is never consulted when a resource is supplied. -/
def dummyWC : WebClient :=
  ⟨fun _ _ => Except.error "client not used",
   fun _ _ _ _ => Except.error "client not used"⟩

/-- Response fixture whose headers carry a non-empty inbox link rel. -/
def headerResp : SolidResponse :=
  ⟨[(INBOX_LINK_REL, "https://ex.org/inbox")], ⟨[]⟩, []⟩

/-- Response fixture with no link headers and one inbox triple in the body. -/
def bodyResp : SolidResponse :=
  ⟨[], ⟨[⟨⟨"https://ex.org/doc"⟩, ⟨INBOX_LINK_REL⟩, ⟨"https://ex.org/body-inbox"⟩⟩]⟩, []⟩

/-- Response fixture with no link headers and no inbox triple. -/
def emptyResp : SolidResponse := ⟨[], ⟨[]⟩, []⟩

/-- Response fixture mapping the inbox relation to the empty string while
also carrying an inbox triple in the body. -/
def falsyHeaderResp : SolidResponse :=
  ⟨[(INBOX_LINK_REL, "")], ⟨[⟨⟨"https://ex.org/doc"⟩, ⟨INBOX_LINK_REL⟩, ⟨"https://ex.org/body-inbox"⟩⟩]⟩, []⟩

/-- Container response fixture used when listing an inbox. -/
def containerResp : SolidResponse :=
  ⟨[], ⟨[]⟩, [("https://ex.org/inbox/1", ""), ("https://ex.org/inbox/2", "")]⟩

/-- End-to-end web client fixture: a GET of the document returns the
response carrying the inbox link header, any other GET returns the
container, and POSTs succeed. -/
def e2eWC : WebClient :=
  ⟨fun u _ => if u == "https://ex.org/doc" then Except.ok headerResp else Except.ok containerResp,
   fun _ _ _ _ => Except.ok containerResp⟩

/-- The body search always records exactly one parseGraph event. -/
theorem searchBodyForInbox_snd (r : SolidResponse) :
    (searchBodyForInbox r).2 = [Event.parseGraph] := by
  unfold searchBodyForInbox
  cases h : r.parsedGraph.«match» none (some (namedNode INBOX_LINK_REL)) none <;> simp [h]

/-- The fetch stage records either no event or one GET of the uri. -/
theorem fetchResource_events (uri : String) (wc : WebClient) (res : Option SolidResponse) :
    (fetchResource uri wc res).2 = [] ∨
      (fetchResource uri wc res).2 = [Event.get uri discoveryHeaders] := by
  cases res <;> simp [fetchResource]

/-- The header-then-body stage records no event or one parseGraph event. -/
theorem discoverFromResource_snd (r : SolidResponse) :
    (discoverFromResource r).2 = [] ∨ (discoverFromResource r).2 = [Event.parseGraph] := by
  unfold discoverFromResource
  cases r.linkHeaders.lookup INBOX_LINK_REL with
  | none => exact Or.inr (searchBodyForInbox_snd r)
  | some s =>
      by_cases hs : s = ""
      · subst hs
        simpa using Or.inr (searchBodyForInbox_snd r)
      · simp [hs]

/-- Discovery never records a solidRequest event. -/
theorem discoverInboxUri_no_request (uri : String) (wc : WebClient)
    (res : Option SolidResponse) :
    (discoverInboxUri uri wc res).2.all (fun e => ! e.isRequest) = true := by
  unfold discoverInboxUri
  rcases hf : fetchResource uri wc res with ⟨fst, snd⟩
  have hsnd : snd = [] ∨ snd = [Event.get uri discoveryHeaders] := by
    have h := fetchResource_events uri wc res
    rw [hf] at h
    exact h
  cases fst with
  | error e => rcases hsnd with h | h <;> simp [h, Event.isRequest]
  | ok r =>
      rcases discoverFromResource_snd r with h2 | h2 <;>
        rcases hsnd with h | h <;> simp [h, h2, Event.isRequest]

/-- Inbox resolution never records a solidRequest event. -/
theorem resolveInbox_no_request (resourceUri : String) (wc : WebClient)
    (ib : Option String) :
    (resolveInbox resourceUri wc ib).2.all (fun e => ! e.isRequest) = true := by
  unfold resolveInbox
  cases ib with
  | none => exact discoverInboxUri_no_request resourceUri wc none
  | some s =>
      by_cases hs : s = ""
      · subst hs
        simpa using discoverInboxUri_no_request resourceUri wc none
      · simp [hs]

/-- Claim C1 counterexample: a resource whose link-header mapping does
contain a value for the inbox relation (the empty string) for which
discoverInboxUri does not resolve to that value and the body IS parsed. -/
theorem C1_counterexample :
    falsyHeaderResp.linkHeaders.lookup INBOX_LINK_REL = some "" ∧
      (discoverInboxUri "https://ex.org/doc" dummyWC (some falsyHeaderResp)).1 ≠
        Except.ok "" ∧
      Event.parseGraph ∈
        (discoverInboxUri "https://ex.org/doc" dummyWC (some falsyHeaderResp)).2 := by
  refine ⟨by decide, by decide, by decide⟩

/-- Claim C1 (amended): for every resource whose link-header mapping
contains a NON-EMPTY value for the inbox relation type, discoverInboxUri
resolves to exactly that value and the body is never parsed into an RDF
graph on this path. -/
theorem C1_nonempty_header_returned_without_parse
    (uri : String) (wc : WebClient) (resource : Option SolidResponse)
    (r : SolidResponse) (evs : List Event) (s : String)
    (hfetch : fetchResource uri wc resource = (Except.ok r, evs))
    (hlink : r.linkHeaders.lookup INBOX_LINK_REL = some s) (hs : s ≠ "") :
    (discoverInboxUri uri wc resource).1 = Except.ok s ∧
      Event.parseGraph ∉ (discoverInboxUri uri wc resource).2 := by
  have hd : discoverFromResource r = (Except.ok s, []) := by
    unfold discoverFromResource
    rw [hlink]
    simp [hs]
  have hevs : evs = [] ∨ evs = [Event.get uri discoveryHeaders] := by
    have h := fetchResource_events uri wc resource
    rw [hfetch] at h
    exact h
  unfold discoverInboxUri
  rw [hfetch]
  simp only [hd]
  constructor
  · trivial
  · rcases hevs with h | h <;> simp [h]

/-- Claim C1 witness: a concrete resource with a non-empty inbox link
header resolves to that header value without a parse event. -/
theorem C1_witness :
    (discoverInboxUri "https://ex.org/doc" dummyWC (some headerResp)).1 =
        Except.ok "https://ex.org/inbox" ∧
      Event.parseGraph ∉
        (discoverInboxUri "https://ex.org/doc" dummyWC (some headerResp)).2 :=
  C1_nonempty_header_returned_without_parse "https://ex.org/doc" dummyWC
    (some headerResp) headerResp [] "https://ex.org/inbox" rfl (by decide) (by decide)

/-- Claim C2: for every resource with no inbox link header whose parsed
graph has at least one triple with the inbox predicate, discoverInboxUri
resolves to the object value of the first triple the graph-match
primitive returns. -/
theorem C2_body_first_match
    (uri : String) (wc : WebClient) (resource : Option SolidResponse)
    (r : SolidResponse) (evs : List Event) (t : Triple) (ts : List Triple)
    (hfetch : fetchResource uri wc resource = (Except.ok r, evs))
    (hlink : r.linkHeaders.lookup INBOX_LINK_REL = none)
    (hmatch : r.parsedGraph.«match» none (some (namedNode INBOX_LINK_REL)) none = t :: ts) :
    (discoverInboxUri uri wc resource).1 = Except.ok t.object.value := by
  have hb : searchBodyForInbox r = (Except.ok t.object.value, [Event.parseGraph]) := by
    unfold searchBodyForInbox
    simp only [hmatch]
  have hd : discoverFromResource r = (Except.ok t.object.value, [Event.parseGraph]) := by
    unfold discoverFromResource
    rw [hlink]
    exact hb
  unfold discoverInboxUri
  rw [hfetch]
  simp only [hd]

/-- Claim C2 witness: a concrete resource with no link header and one
body inbox triple resolves to that triple object value. -/
theorem C2_witness :
    (discoverInboxUri "https://ex.org/doc" dummyWC (some bodyResp)).1 =
      Except.ok (Triple.object ⟨⟨"https://ex.org/doc"⟩, ⟨INBOX_LINK_REL⟩, ⟨"https://ex.org/body-inbox"⟩⟩).value :=
  C2_body_first_match "https://ex.org/doc" dummyWC (some bodyResp) bodyResp []
    ⟨⟨"https://ex.org/doc"⟩, ⟨INBOX_LINK_REL⟩, ⟨"https://ex.org/body-inbox"⟩⟩ []
    rfl (by decide) (by decide)

/-- Claim C3: for every resource lacking both an inbox link header and a
body triple with the inbox predicate, discoverInboxUri fails with the
dedicated raised no-inbox error, and only after the body was searched
(a parseGraph event precedes the failure); the raised constructor keeps
it distinct from errors propagated from the client. -/
theorem C3_no_inbox_error
    (uri : String) (wc : WebClient) (resource : Option SolidResponse)
    (r : SolidResponse) (evs : List Event)
    (hfetch : fetchResource uri wc resource = (Except.ok r, evs))
    (hlink : r.linkHeaders.lookup INBOX_LINK_REL = none)
    (hmatch : r.parsedGraph.«match» none (some (namedNode INBOX_LINK_REL)) none = []) :
    (discoverInboxUri uri wc resource).1 =
        Except.error (LdnError.raised "No inbox uri found for resource.") ∧
      Event.parseGraph ∈ (discoverInboxUri uri wc resource).2 := by
  have hb : searchBodyForInbox r =
      (Except.error (LdnError.raised "No inbox uri found for resource."),
        [Event.parseGraph]) := by
    unfold searchBodyForInbox
    simp only [hmatch]
  have hd : discoverFromResource r =
      (Except.error (LdnError.raised "No inbox uri found for resource."),
        [Event.parseGraph]) := by
    unfold discoverFromResource
    rw [hlink]
    exact hb
  unfold discoverInboxUri
  rw [hfetch]
  simp only [hd]
  exact ⟨trivial, by simp⟩

/-- Claim C3 witness: a concrete resource with neither header nor body
inbox yields the dedicated error after a parse event. -/
theorem C3_witness :
    (discoverInboxUri "https://ex.org/doc" dummyWC (some emptyResp)).1 =
        Except.error (LdnError.raised "No inbox uri found for resource.") ∧
      Event.parseGraph ∈
        (discoverInboxUri "https://ex.org/doc" dummyWC (some emptyResp)).2 :=
  C3_no_inbox_error "https://ex.org/doc" dummyWC (some emptyResp) emptyResp []
    rfl (by decide) (by decide)

/-- Claim C4: list and send called with options lacking a webClient
reject with the raised web-client-required error and an empty trace, so
zero network calls are issued and discovery is never attempted. -/
theorem C4_missing_webclient_rejects (resourceUri payload : String)
    (ib ct : Option String) :
    list resourceUri ⟨none, ib, ct⟩ =
        (Except.error (LdnError.raised "Web client instance is required"), []) ∧
      send resourceUri payload ⟨none, ib, ct⟩ =
        (Except.error (LdnError.raised "Web client instance is required"), []) :=
  ⟨rfl, rfl⟩

/-- Claim C5 counterexample: with options.inboxUri set (to the empty
string) a discovery GET of the resource uri IS issued by list, so
discovery is not skipped for every set value. -/
theorem C5_counterexample :
    (Options.mk (some e2eWC) (some "") none).inboxUri = some "" ∧
      Event.get "https://ex.org/doc" discoveryHeaders ∈
        (list "https://ex.org/doc" ⟨some e2eWC, some "", none⟩).2 :=
  ⟨rfl, by decide⟩

/-- Claim C5 (amended): with options.inboxUri set to a NON-EMPTY string,
discovery is skipped entirely: the whole trace of list is the single
inbox GET and the whole trace of send is the single POST. -/
theorem C5_nonempty_inboxUri_skips_discovery
    (resourceUri payload s : String) (wc : WebClient) (ct : Option String)
    (hs : s ≠ "") :
    (list resourceUri ⟨some wc, some s, ct⟩).2 = [Event.get s discoveryHeaders] ∧
      (send resourceUri payload ⟨some wc, some s, ct⟩).2 =
        [Event.request s "POST" [("Content-Type", resolveContentType ct)] payload] := by
  have hres : resolveInbox resourceUri wc (some s) = (Except.ok s, []) := by
    unfold resolveInbox
    simp [hs]
  constructor
  · unfold list
    simp only [hres]
    cases wc.get s discoveryHeaders <;> simp
  · unfold send
    simp only [hres]
    cases wc.solidRequest s "POST" [("Content-Type", resolveContentType ct)] payload <;> simp

/-- Claim C5 witness: with a concrete non-empty inboxUri, the traces of
list and send are exactly the inbox GET and the POST. -/
theorem C5_witness :
    (list "https://ex.org/doc" ⟨some e2eWC, some "https://ex.org/inbox", none⟩).2 =
        [Event.get "https://ex.org/inbox" discoveryHeaders] ∧
      (send "https://ex.org/doc" "p" ⟨some e2eWC, some "https://ex.org/inbox", none⟩).2 =
        [Event.request "https://ex.org/inbox" "POST"
          [("Content-Type", resolveContentType none)] "p"] :=
  C5_nonempty_inboxUri_skips_discovery "https://ex.org/doc" "p"
    "https://ex.org/inbox" e2eWC none (by decide)

/-- Claim C6: when a pre-fetched resource is supplied as the third
argument, discoverInboxUri records no GET event at all, so the client
fetch capability is never invoked. -/
theorem C6_prefetched_resource_no_get (uri : String) (wc : WebClient)
    (r : SolidResponse) :
    (discoverInboxUri uri wc (some r)).2.all (fun e => ! e.isGet) = true := by
  unfold discoverInboxUri
  simp only [fetchResource]
  rcases discoverFromResource_snd r with h | h <;> simp [h, Event.isGet]

/-- Claim C7: list with a web client and a resolvable inbox uri issues a
GET of that inbox uri with the negotiated Accept header and resolves to
the keys of the returned container resources mapping. -/
theorem C7_list_returns_container_keys
    (resourceUri : String) (wc : WebClient) (ib ct : Option String)
    (inboxUri : String) (evs : List Event) (container : SolidResponse)
    (hresolve : resolveInbox resourceUri wc ib = (Except.ok inboxUri, evs))
    (hget : wc.get inboxUri discoveryHeaders = Except.ok container) :
    list resourceUri ⟨some wc, ib, ct⟩ =
      (Except.ok (container.resources.map Prod.fst),
        evs ++ [Event.get inboxUri discoveryHeaders]) := by
  unfold list
  simp only [hresolve, hget]

/-- Claim C7 witness: a concrete run of list with a supplied inbox uri
returns the container member keys after GETting the inbox. -/
theorem C7_witness :
    list "https://ex.org/doc" ⟨some e2eWC, some "https://ex.org/inbox", none⟩ =
      (Except.ok (containerResp.resources.map Prod.fst),
        [] ++ [Event.get "https://ex.org/inbox" discoveryHeaders]) :=
  C7_list_returns_container_keys "https://ex.org/doc" e2eWC
    (some "https://ex.org/inbox") none "https://ex.org/inbox" [] containerResp
    (by decide) (by decide)

/-- Claim C8 counterexample: with options.contentType given (as the
empty string) the single POST carries the default Content-Type, not the
given value. -/
theorem C8_counterexample :
    (Options.mk (some e2eWC) (some "https://ex.org/inbox") (some "")).contentType = some "" ∧
      (send "https://ex.org/doc" "p" ⟨some e2eWC, some "https://ex.org/inbox", some ""⟩).2 =
        [Event.request "https://ex.org/inbox" "POST"
          [("Content-Type", "application/ld+json")] "p"] ∧
      ("application/ld+json" : String) ≠ "" :=
  ⟨rfl, by decide, by decide⟩

/-- Claim C8 (amended): send with a web client and a resolvable inbox
uri issues exactly one POST of the payload to that uri, with
Content-Type equal to options.contentType when a NON-EMPTY value is
given and equal to application/ld+json when it is absent. -/
theorem C8_send_single_post
    (resourceUri payload : String) (wc : WebClient) (ib ct : Option String)
    (inboxUri : String) (evs : List Event)
    (hresolve : resolveInbox resourceUri wc ib = (Except.ok inboxUri, evs)) :
    (send resourceUri payload ⟨some wc, ib, ct⟩).2.filter Event.isRequest =
        [Event.request inboxUri "POST"
          [("Content-Type", resolveContentType ct)] payload] ∧
      (∀ s, ct = some s → s ≠ "" → resolveContentType ct = s) ∧
      (ct = none → resolveContentType ct = DEFAULT_CONTENT_TYPE) := by
  have hall : evs.all (fun e => ! e.isRequest) = true := by
    have h := resolveInbox_no_request resourceUri wc ib
    rw [hresolve] at h
    exact h
  have hfil : evs.filter Event.isRequest = [] := by
    rw [List.filter_eq_nil_iff]
    intro a ha
    have h2 := List.all_eq_true.mp hall a ha
    simp only [Bool.not_eq_true'] at h2
    simp [h2]
  refine ⟨?_, ?_, ?_⟩
  · unfold send
    simp only [hresolve]
    cases wc.solidRequest inboxUri "POST" [("Content-Type", resolveContentType ct)] payload <;>
      simp [List.filter_append, hfil, Event.isRequest]
  · intro s hct hs
    subst hct
    simp [resolveContentType, hs]
  · intro hct
    subst hct
    rfl

/-- Claim C8 witness: a concrete send with a non-empty contentType posts
once with exactly that Content-Type. -/
theorem C8_witness :
    (send "https://ex.org/doc" "p"
        ⟨some e2eWC, some "https://ex.org/inbox", some "text/turtle"⟩).2.filter Event.isRequest =
        [Event.request "https://ex.org/inbox" "POST"
          [("Content-Type", resolveContentType (some "text/turtle"))] "p"] ∧
      (∀ s, (some "text/turtle" : Option String) = some s → s ≠ "" →
        resolveContentType (some "text/turtle") = s) ∧
      ((some "text/turtle" : Option String) = none →
        resolveContentType (some "text/turtle") = DEFAULT_CONTENT_TYPE) :=
  C8_send_single_post "https://ex.org/doc" "p" e2eWC
    (some "https://ex.org/inbox") (some "text/turtle") "https://ex.org/inbox" []
    (by decide)

/-- Claim C9: discoverInboxUri without a pre-fetched resource issues a
single GET of the resource uri and it carries the content-negotiation
Accept header. -/
theorem C9_discovery_get_accept_header (uri : String) (wc : WebClient) :
    (discoverInboxUri uri wc none).2.filter Event.isGet =
      [Event.get uri [("Accept", "application/ld+json;q=0.9,text/turtle;q=0.8")]] := by
  unfold discoverInboxUri
  simp only [fetchResource]
  cases wc.get uri discoveryHeaders with
  | error e => simp [Event.isGet, discoveryHeaders, DEFAULT_ACCEPT]
  | ok r =>
      rcases discoverFromResource_snd r with h | h <;>
        simp [h, Event.isGet, discoveryHeaders, DEFAULT_ACCEPT]

/-- Claim C10: a link-header mapping that maps the inbox relation to the
empty (falsy) value is treated as absent: discoverInboxUri behaves
exactly as the body search, so the body is parsed and searched for an
inbox triple instead of the empty value being returned. -/
theorem C10_falsy_header_falls_through
    (uri : String) (wc : WebClient) (r : SolidResponse)
    (hlink : r.linkHeaders.lookup INBOX_LINK_REL = some "") :
    discoverInboxUri uri wc (some r) = searchBodyForInbox r ∧
      Event.parseGraph ∈ (discoverInboxUri uri wc (some r)).2 := by
  have hd : discoverFromResource r = searchBodyForInbox r := by
    unfold discoverFromResource
    rw [hlink]
    simp
  have hmain : discoverInboxUri uri wc (some r) = searchBodyForInbox r := by
    unfold discoverInboxUri
    simp only [fetchResource]
    simp [hd]
  refine ⟨hmain, ?_⟩
  rw [hmain, searchBodyForInbox_snd r]
  simp

/-- Claim C10 witness: a concrete resource with an empty inbox link
header value falls through to the body search. -/
theorem C10_witness :
    discoverInboxUri "https://ex.org/doc" dummyWC (some falsyHeaderResp) =
        searchBodyForInbox falsyHeaderResp ∧
      Event.parseGraph ∈
        (discoverInboxUri "https://ex.org/doc" dummyWC (some falsyHeaderResp)).2 :=
  C10_falsy_header_falls_through "https://ex.org/doc" dummyWC falsyHeaderResp
    (by decide)

end LDN
